import Mathlib

/-!
Verification development for the niney-life-pickr smart server
(`src/servers/smart/src`): a shallow embedding in Lean 4 of the
request/response handlers (`api/ml.py`, `api/recommendations.py`) and of the
configuration resolver (`core/config.py`), together with theorems settling
the specification claims about them.

Python dictionaries with arbitrary values (`Dict[str, Any]`, parsed YAML) are
embedded as a JSON-like inductive `PyVal`; Python floats that only ever hold
exact decimal literals are embedded as rationals; Python exceptions are
embedded as `Except`.
-/

namespace Smart

/-- A Python/JSON-ish dynamic value: embeds `Dict[str, Any]` payloads and
`yaml.safe_load` results. Objects are association lists (first binding wins on
lookup, as in a Python dict which holds each key once). -/
inductive PyVal where
  | vnull : PyVal
  | vbool : Bool → PyVal
  | vint : Int → PyVal
  | vnum : ℚ → PyVal
  | vstr : String → PyVal
  | varr : List PyVal → PyVal
  | vobj : List (String × PyVal) → PyVal

/-- Dict lookup, `d.get(key)` / `d[key]` on an object value; `none` on a
missing key or a non-object. -/
def pyGet (v : PyVal) (key : String) : Option PyVal :=
  match v with
  | .vobj kvs => (kvs.find? (fun kv => kv.fst = key)).map (fun kv => kv.snd)
  | _ => none

/-- Python truthiness of a `PyVal` (`if config:`): `None`, `False`, zero,
empty string, empty list and empty dict are falsy, everything else truthy. -/
def pyTruthy (v : PyVal) : Bool :=
  match v with
  | .vnull => false
  | .vbool b => b
  | .vint n => n ≠ 0
  | .vnum q => q ≠ 0
  | .vstr s => s ≠ ""
  | .varr l => ¬ l.isEmpty
  | .vobj kvs => ¬ kvs.isEmpty

/-- An ASCII single-quote character, used to spell the 404 detail string. -/
def squote : String := String.singleton (Char.ofNat 39)

/-! ## `api/ml.py` -/

/-- `PredictionRequest` (api/ml.py): `data: List[Dict[str, Any]]`,
`model_name: str = "default"`, `confidence_threshold: float = 0.5`. -/
structure PredictionRequest where
  data : List (List (String × PyVal))
  model_name : String := "default"
  confidence_threshold : ℚ := (1 : ℚ) / 2

/-- `PredictionResponse` (api/ml.py). -/
structure PredictionResponse where
  predictions : List (List (String × PyVal))
  model_name : String
  confidence_scores : List ℚ
  processing_time_ms : ℚ

/-- The `predict` handler (api/ml.py): placeholder implementation returning
one `{"result": "placeholder"}` record and one `0.95` score per input record,
with `processing_time_ms=100.0` written as a literal in the source. -/
def predict (request : PredictionRequest) : PredictionResponse :=
  { predictions := request.data.map (fun _ => [("result", PyVal.vstr ("placeholder"))])
    model_name := request.model_name
    confidence_scores := request.data.map (fun _ => (95 : ℚ) / 100)
    processing_time_ms := 100 }

/-- The body of an `HTTPException` raised by a handler. -/
structure HTTPError where
  status_code : Nat
  detail : String

/-- The static per-model info dict literal inside `get_model_info`, entry for
`"default"`. -/
def defaultModelInfo : PyVal :=
  .vobj [("name", .vstr ("default")), ("version", .vstr ("1.0.0")),
         ("type", .vstr ("classification")), ("status", .vstr ("ready")),
         ("metrics", .vobj [("accuracy", .vnum ((95 : ℚ) / 100)),
                            ("precision", .vnum ((94 : ℚ) / 100)),
                            ("recall", .vnum ((96 : ℚ) / 100))])]

/-- The static per-model info dict literal inside `get_model_info`, entry for
`"recommendation"`. -/
def recommendationModelInfo : PyVal :=
  .vobj [("name", .vstr ("recommendation")), ("version", .vstr ("1.0.0")),
         ("type", .vstr ("recommendation")), ("status", .vstr ("ready")),
         ("metrics", .vobj [("map", .vnum ((85 : ℚ) / 100)),
                            ("ndcg", .vnum ((88 : ℚ) / 100))])]

/-- The `get_model_info` handler (api/ml.py): looks the name up in the static
two-entry dict; a name not among its keys raises a 404 `HTTPException` with
detail `"Model '<name>' not found"`. -/
def get_model_info (model_name : String) : Except HTTPError PyVal :=
  if model_name = "default" then .ok defaultModelInfo
  else if model_name = "recommendation" then .ok recommendationModelInfo
  else .error { status_code := 404
                detail := "Model " ++ squote ++ model_name ++ squote ++ " not found" }

/-! ## `api/recommendations.py` -/

/-- `RecommendationRequest` (api/recommendations.py): note that `limit` is a
plain `int = 10` with no bound declared, so the schema accepts negative
limits. -/
structure RecommendationRequest where
  user_id : Option String := none
  category : String
  context : Option (List (String × PyVal)) := none
  limit : Int := 10

/-- `RecommendationItem` (api/recommendations.py). -/
structure RecommendationItem where
  id : String
  name : String
  category : String
  score : ℚ
  description : Option String := none
  metadata : Option PyVal := none

/-- `RecommendationResponse` (api/recommendations.py). -/
structure RecommendationResponse where
  user_id : Option String
  category : String
  recommendations : List RecommendationItem
  total_count : Nat

/-- Python list slicing `l[:n]`: for `n ≥ 0` the first `min n (len l)`
elements; for `n < 0` the elements before index `len l + n` (empty when
`len l + n ≤ 0`). -/
def pySliceTo (l : List α) (n : Int) : List α :=
  if 0 ≤ n then l.take n.toNat
  else l.take ((l.length : Int) + n).toNat

/-- The `"food"` branch catalog literal of `get_recommendations`. -/
def foodCatalog : List RecommendationItem :=
  [{ id := "1", name := "Korean BBQ", category := "food", score := (95 : ℚ) / 100
     description := some ("Delicious grilled meat with vegetables") },
   { id := "2", name := "Sushi", category := "food", score := (88 : ℚ) / 100
     description := some ("Fresh Japanese cuisine") },
   { id := "3", name := "Pizza", category := "food", score := (82 : ℚ) / 100
     description := some ("Classic Italian comfort food") }]

/-- The `"place"` branch catalog literal of `get_recommendations`. -/
def placeCatalog : List RecommendationItem :=
  [{ id := "4", name := "Central Park", category := "place", score := (92 : ℚ) / 100
     description := some ("Beautiful urban park") },
   { id := "5", name := "Museum of Art", category := "place", score := (87 : ℚ) / 100
     description := some ("World-class art collection") }]

/-- The `"activity"` branch catalog literal of `get_recommendations`. -/
def activityCatalog : List RecommendationItem :=
  [{ id := "6", name := "Hiking", category := "activity", score := (90 : ℚ) / 100
     description := some ("Outdoor adventure in nature") },
   { id := "7", name := "Movie Night", category := "activity", score := (85 : ℚ) / 100
     description := some ("Relaxing entertainment at home") }]

/-- The `get_recommendations` handler (api/recommendations.py): an
`if/elif` chain selects the catalog for the category (empty for any other
category), the response slices it to `request.limit` and reports the
pre-truncation length as `total_count`. -/
def get_recommendations (request : RecommendationRequest) : RecommendationResponse :=
  let recommendations : List RecommendationItem :=
    if request.category = "food" then foodCatalog
    else if request.category = "place" then placeCatalog
    else if request.category = "activity" then activityCatalog
    else []
  { user_id := request.user_id
    category := request.category
    recommendations := pySliceTo recommendations request.limit
    total_count := recommendations.length }

/-- One trending item of the static list in `get_trending`. -/
structure TrendingItem where
  id : String
  name : String
  category : String
  trend_score : Nat
  popularity : String

/-- Response of `get_trending`. -/
structure TrendingResponse where
  trending : List TrendingItem
  updated_at : String

/-- The static `trending_items` list literal of `get_trending`. -/
def trendingItems : List TrendingItem :=
  [{ id := "t1", name := "Trendy Cafe", category := "food", trend_score := 98
     popularity := "rising" },
   { id := "t2", name := "New Art Gallery", category := "place", trend_score := 95
     popularity := "hot" },
   { id := "t3", name := "Escape Room", category := "activity", trend_score := 92
     popularity := "rising" }]

/-- Python truthiness of an `Optional[str]`: `None` and the empty string are
falsy. -/
def pyTruthyOptStr (s : Option String) : Bool :=
  match s with
  | none => false
  | some str => str ≠ ""

/-- The `get_trending` handler (api/recommendations.py): `category` is an
optional query parameter, filtering applies only when it is truthy
(`if category:`), comparison is exact (`item["category"] == category`), the
result is sliced to `limit`. (The interface layer constrains the query
`limit` to `1 ≤ limit ≤ 100`, which the handler itself does not re-check.) -/
def get_trending (category : Option String) (limit : Int) : TrendingResponse :=
  let trending_items :=
    if pyTruthyOptStr category then
      trendingItems.filter (fun item => some item.category = category)
    else trendingItems
  { trending := pySliceTo trending_items limit
    updated_at := "2024-01-01T00:00:00Z" }

/-! ## `core/config.py`

The `Settings` class resolves configuration from built-in defaults, a base
YAML file, an environment-named YAML file and process environment variables.
File system and YAML parser are external effects, embedded as a `YamlFile`
summarising what `Path.exists` / `open` / `yaml.safe_load` yield for a path:
the file may be absent, present but unparseable (in which case
`yaml.safe_load` raises `yaml.YAMLError`, which `_apply_yaml_config` does not
catch), or parsed to `none` (empty document) or to a `PyVal`. -/

/-- The `Settings` record (core/config.py), one field per pydantic field. -/
structure Settings where
  APP_NAME : String
  VERSION : String
  ENVIRONMENT : String
  DEBUG : Bool
  HOST : String
  PORT : Int
  LOG_LEVEL : String
  CORS_ORIGINS : List String
  API_PREFIX : String
  DOCS_ENABLED : Bool
  SECRET_KEY : String
  ALGORITHM : String
  ACCESS_TOKEN_EXPIRE_MINUTES : Int
  MODEL_PATH : String
  MAX_BATCH_SIZE : Int
  PREDICTION_TIMEOUT : Int

/-- The built-in default values of every `Settings` field. -/
def defaultSettings : Settings :=
  { APP_NAME := "Niney Life Pickr Smart Server"
    VERSION := "1.0.0"
    ENVIRONMENT := "development"
    DEBUG := true
    HOST := "localhost"
    PORT := 5000
    LOG_LEVEL := "INFO"
    CORS_ORIGINS := ["http://localhost:3000", "http://localhost:4000"]
    API_PREFIX := "/api"
    DOCS_ENABLED := true
    SECRET_KEY := "your-secret-key-here-change-in-production"
    ALGORITHM := "HS256"
    ACCESS_TOKEN_EXPIRE_MINUTES := 30
    MODEL_PATH := "models/"
    MAX_BATCH_SIZE := 32
    PREDICTION_TIMEOUT := 30 }

/-- What the file system and YAML parser yield for one config path. -/
inductive YamlFile where
  | absent : YamlFile
  | malformed : YamlFile
  | parsed : Option PyVal → YamlFile

/-- An exception escaping `Settings` construction. -/
inductive ConfigError where
  | yamlError : ConfigError
  | valueError : ConfigError

/-- Extract the string assigned by `smart_config.get("host", self.HOST)`:
the YAML scalar under the key when it is a string, the current value when
the key is absent. (The embedding assumes a well-typed scalar, i.e. a YAML
`host` is written as a string.) -/
def yamlHost (smart_config : PyVal) (current : String) : String :=
  match pyGet smart_config ("host") with
  | some (.vstr h) => h
  | _ => current

/-- Extract the integer assigned by `smart_config.get("port", self.PORT)`,
analogous to `yamlHost`. -/
def yamlPort (smart_config : PyVal) (current : Int) : Int :=
  match pyGet smart_config ("port") with
  | some (.vint p) => p
  | _ => current

/-- `Settings._apply_yaml_config` (core/config.py): a missing file is
skipped; an existing file is read and parsed, and a `yaml.YAMLError` from
`yaml.safe_load` propagates (there is no `try/except`); a parsed document is
consulted only when it is truthy and has a `server` key whose value has a
`smart` key, and then only `host` and `port` are applied. -/
def apply_yaml_config (s : Settings) (file : YamlFile) : Except ConfigError Settings :=
  match file with
  | .absent => .ok s
  | .malformed => .error .yamlError
  | .parsed config =>
    match config with
    | none => .ok s
    | some config =>
      if pyTruthy config then
        match pyGet config ("server") with
        | none => .ok s
        | some server =>
          match pyGet server ("smart") with
          | none => .ok s
          | some smart_config =>
            .ok { s with HOST := yamlHost smart_config s.HOST
                         PORT := yamlPort smart_config s.PORT }
      else .ok s

/-- The process environment, restricted to the variable names the resolver
reads. `none` means the variable is unset. -/
structure Env where
  HOST : Option String := none
  PORT : Option String := none
  PYTHON_ENV : Option String := none
  LOG_LEVEL : Option String := none

/-- An ASCII whitespace character as stripped by Python `int()` before
parsing. -/
def isPySpace (c : Char) : Bool :=
  c.toNat = 32 ∨ c.toNat = 9 ∨ c.toNat = 10 ∨ c.toNat = 13 ∨
  c.toNat = 11 ∨ c.toNat = 12

/-- Strip leading and trailing whitespace from a character list. -/
def stripChars (l : List Char) : List Char :=
  ((l.dropWhile isPySpace).reverse.dropWhile isPySpace).reverse

/-- The value of a decimal digit character, `none` for a non-digit. -/
def digit? (c : Char) : Option Nat :=
  if 48 ≤ c.toNat ∧ c.toNat ≤ 57 then some (c.toNat - 48) else none

/-- Parse a digit string left to right onto an accumulator; `none` as soon
as a non-digit appears. -/
def digitsValAux : List Char → Nat → Option Nat
  | [], acc => some acc
  | c :: cs, acc =>
    match digit? c with
    | none => none
    | some d => digitsValAux cs (acc * 10 + d)

/-- Parse an optional sign followed by at least one digit. -/
def pyIntOfChars (l : List Char) : Option Int :=
  match l with
  | [] => none
  | c :: cs =>
    if c.toNat = 45 then
      match cs with
      | [] => none
      | _ => (digitsValAux cs 0).map (fun n => -(n : Int))
    else if c.toNat = 43 then
      match cs with
      | [] => none
      | _ => (digitsValAux cs 0).map (fun n => (n : Int))
    else (digitsValAux l 0).map (fun n => (n : Int))

/-- Python `int(s)` on a string: after stripping surrounding whitespace, an
optional sign followed by decimal digits parses to that integer, anything
else raises `ValueError` (`none`). (ASCII digits; Python's underscore
separators and non-ASCII digits are outside this model.) -/
def pyInt (s : String) : Option Int := pyIntOfChars (stripChars s.data)

/-- The tail of `Settings._load_yaml_config`: the environment-variable
overrides applied after both YAML files, in source order. `PORT` goes through
`int(os.getenv("PORT", str(self.PORT)))`: when the variable is unset,
`int(str(self.PORT))` gives back `self.PORT`; when it is set to a string
`int` rejects, a `ValueError` escapes. -/
def applyEnvOverrides (s : Settings) (env : Env) : Except ConfigError Settings :=
  let s := { s with HOST := env.HOST.getD s.HOST }
  match env.PORT with
  | none =>
    .ok { s with ENVIRONMENT := env.PYTHON_ENV.getD s.ENVIRONMENT
                 LOG_LEVEL := env.LOG_LEVEL.getD s.LOG_LEVEL }
  | some p =>
    match pyInt p with
    | none => .error .valueError
    | some n =>
      .ok { s with PORT := n
                   ENVIRONMENT := env.PYTHON_ENV.getD s.ENVIRONMENT
                   LOG_LEVEL := env.LOG_LEVEL.getD s.LOG_LEVEL }

/-- `Settings._load_yaml_config` (core/config.py): apply `config/base.yml`,
then `config/{env}.yml` where `env = os.getenv("PYTHON_ENV", self.ENVIRONMENT)`,
then the environment-variable overrides. `files` maps a file stem (the name
before `.yml` inside the config directory) to what the file system holds
there. -/
def load_yaml_config (s : Settings) (files : String → YamlFile) (env : Env) :
    Except ConfigError Settings :=
  match apply_yaml_config s (files ("base")) with
  | .error e => .error e
  | .ok s =>
    match apply_yaml_config s (files (env.PYTHON_ENV.getD s.ENVIRONMENT)) with
    | .error e => .error e
    | .ok s => applyEnvOverrides s env

/-- The pydantic `BaseSettings.__init__` layer run by `super().__init__()`
(no keyword arguments are ever passed): each field may be populated from the
case-sensitive environment variable of the same name, with type coercion;
restricted to the variables in `Env`, this sets `HOST` and `LOG_LEVEL` from
their variables and `PORT` through integer coercion, which fails `Settings`
construction with a validation error on a non-numeric string.
(`PYTHON_ENV` matches no field name and is ignored here.) -/
def pydanticInit (env : Env) : Except ConfigError Settings :=
  let s := { defaultSettings with
             HOST := env.HOST.getD defaultSettings.HOST
             LOG_LEVEL := env.LOG_LEVEL.getD defaultSettings.LOG_LEVEL }
  match env.PORT with
  | none => .ok s
  | some p =>
    match pyInt p with
    | none => .error .valueError
    | some n => .ok { s with PORT := n }

/-- `Settings.__init__` (core/config.py): `super().__init__()` followed by
`self._load_yaml_config()`. -/
def settingsInit (files : String → YamlFile) (env : Env) : Except ConfigError Settings :=
  match pydanticInit env with
  | .error e => .error e
  | .ok s => load_yaml_config s files env

/-- A demonstration YAML document carrying a `server.smart` section that sets
`host` and `port` and additionally holds keys naming other `Settings` fields,
which `_apply_yaml_config` never reads. -/
def frameDemoDoc : PyVal :=
  .vobj [("server",
          .vobj [("smart",
                  .vobj [("host", .vstr ("confighost")), ("port", .vint 1234),
                         ("SECRET_KEY", .vstr ("from-file")),
                         ("DEBUG", .vbool false),
                         ("LOG_LEVEL", .vstr ("ERROR"))])])]

/-- What `_apply_yaml_config` makes of `defaultSettings` under
`frameDemoDoc`: only `HOST` and `PORT` move. -/
def frameDemoResult : Settings :=
  { defaultSettings with HOST := "confighost", PORT := 1234 }

/-- A demonstration file system where every config path parses to
`frameDemoDoc` (so both the base file and the environment file set the
port to 1234). -/
def demoFiles : String → YamlFile := fun _ => .parsed (some frameDemoDoc)

/-- A demonstration process environment setting only `PORT=9999`. -/
def demoEnv : Env := { PORT := some "9999" }

/-- The settings `settingsInit` resolves from `demoFiles` and `demoEnv`:
the file host survives, the environment port wins. -/
def demoResolved : Settings :=
  { defaultSettings with HOST := "confighost", PORT := 9999 }

/-! ## Theorems about the handlers -/

/-- For a non-negative bound, Python slicing `l[:n]` yields at most `n`
elements, at most all of `l`, and exactly none for `n = 0`. -/
theorem pySliceTo_spec_nonneg (l : List α) (n : Int) (h : 0 ≤ n) :
    ((pySliceTo l n).length : Int) ≤ n ∧
    (pySliceTo l n).length ≤ l.length ∧
    (n = 0 → pySliceTo l n = []) := by
  unfold pySliceTo
  rw [if_pos h]
  refine ⟨?_, ?_, ?_⟩
  · have h1 : (l.take n.toNat).length ≤ n.toNat := by
      rw [List.length_take]
      exact Nat.min_le_left _ _
    calc ((l.take n.toNat).length : Int) ≤ (n.toNat : Int) := Int.ofNat_le.mpr h1
      _ = n := Int.toNat_of_nonneg h
  · rw [List.length_take]
    exact Nat.min_le_right _ _
  · intro h0
    subst h0
    simp

/-- C1: for every prediction request, `predict` returns exactly one
prediction and one confidence score per input record
(`len(predictions) == len(request.data) == len(confidence_scores)`), and on
an empty `data` both lists are empty. -/
theorem predict_one_output_per_record (request : PredictionRequest) :
    (predict request).predictions.length = request.data.length ∧
    (predict request).confidence_scores.length = request.data.length ∧
    (request.data = [] →
      (predict request).predictions = [] ∧
      (predict request).confidence_scores = []) := by
  refine ⟨List.length_map _ _, List.length_map _ _, ?_⟩
  intro h
  simp [predict, h]

/-- Witness for C1 at the concrete request `{"data": [], "model_name": "x"}`. -/
theorem predict_one_output_per_record_witness :
    (predict { data := [], model_name := "x" }).predictions = [] ∧
    (predict { data := [], model_name := "x" }).confidence_scores = [] :=
  (predict_one_output_per_record { data := [], model_name := "x" }).2.2 rfl

/-- C4 counterexample: `processing_time_ms` is the hard-coded literal `100.0`
at two concrete requests of different sizes (an empty batch and a three-record
batch), so it is a constant of the handler, not an elapsed-time measurement
that varies with the request. -/
theorem processing_time_is_literal_cex :
    (predict { data := [] }).processing_time_ms = 100 ∧
    (predict { data := [[("x", PyVal.vint 1)], [("x", PyVal.vint 2)],
                        [("x", PyVal.vint 3)]] }).processing_time_ms = 100 :=
  ⟨rfl, rfl⟩

/-- C4 amended: for every prediction request, `processing_time_ms` equals the
literal constant `100.0` written in the source, independent of the request. -/
theorem processing_time_is_literal (request : PredictionRequest) :
    (predict request).processing_time_ms = 100 := rfl

/-- C7: `get_model_info` returns the static catalog entry for `"default"`
and `"recommendation"`, and for any other name errors with status 404 and
detail exactly `"Model '<name>' not found"`. -/
theorem get_model_info_catalog_or_404 (model_name : String) :
    (model_name = "default" →
      get_model_info model_name = .ok defaultModelInfo) ∧
    (model_name = "recommendation" →
      get_model_info model_name = .ok recommendationModelInfo) ∧
    (model_name ≠ "default" → model_name ≠ "recommendation" →
      get_model_info model_name =
        .error { status_code := 404
                 detail := "Model " ++ squote ++ model_name ++ squote ++ " not found" }) := by
  refine ⟨fun h => ?_, fun h => ?_, fun h1 h2 => ?_⟩
  · simp [get_model_info, h]
  · simp [get_model_info, h]
  · simp [get_model_info, h1, h2]

/-- Witness for C7: the known name `"default"` hits the catalog and the
unknown name `"mystery"` yields the 404 with the name embedded. -/
theorem get_model_info_catalog_or_404_witness :
    get_model_info ("default") = .ok defaultModelInfo ∧
    get_model_info ("mystery") =
      .error { status_code := 404
               detail := "Model " ++ squote ++ "mystery" ++ squote ++ " not found" } :=
  ⟨(get_model_info_catalog_or_404 ("default")).1 rfl,
   (get_model_info_catalog_or_404 ("mystery")).2.2 (by decide) (by decide)⟩

/-- C9: the request schema accepts a negative limit (`limit` is a plain
`int`), and `get_recommendations` with category `"food"` and `limit = -1`
applies Python negative slicing: it returns the first 2 of the 3 food items
with `total_count = 3`, violating `len(recommendations) <= limit`. -/
theorem negative_limit_slices_from_end :
    (get_recommendations { category := "food", limit := -1 }).recommendations =
      foodCatalog.take 2 ∧
    (get_recommendations { category := "food", limit := -1 }).total_count = 3 ∧
    ¬ (((get_recommendations { category := "food", limit := -1 }).recommendations.length : Int) ≤ -1) :=
  ⟨rfl, rfl, by decide⟩

/-- C2: for every recommendation request with a non-negative limit, the
response holds at most `limit` recommendations, `total_count` is the
untruncated catalog size for the category (3 food, 2 place, 2 activity,
0 otherwise) and hence bounds the truncated length, and a limit of 0 yields
no recommendations. -/
theorem recommendations_truncated_to_limit (request : RecommendationRequest)
    (h : 0 ≤ request.limit) :
    ((get_recommendations request).recommendations.length : Int) ≤ request.limit ∧
    (get_recommendations request).total_count =
      (if request.category = "food" then 3
       else if request.category = "place" then 2
       else if request.category = "activity" then 2 else 0) ∧
    (get_recommendations request).recommendations.length ≤
      (get_recommendations request).total_count ∧
    (request.limit = 0 → (get_recommendations request).recommendations = []) := by
  have hs := pySliceTo_spec_nonneg
    (if request.category = "food" then foodCatalog
     else if request.category = "place" then placeCatalog
     else if request.category = "activity" then activityCatalog else [])
    request.limit h
  refine ⟨hs.1, ?_, hs.2.1, hs.2.2⟩
  show (if request.category = "food" then foodCatalog
        else if request.category = "place" then placeCatalog
        else if request.category = "activity" then activityCatalog else []).length = _
  split_ifs <;> rfl

/-- Witness for C2 at the concrete request `{"category": "food", "limit": 2}`. -/
theorem recommendations_truncated_to_limit_witness :
    ((get_recommendations { category := "food", limit := 2 }).recommendations.length : Int) ≤ 2 ∧
    (get_recommendations { category := "food", limit := 2 }).total_count = 3 := by
  have h := recommendations_truncated_to_limit { category := "food", limit := 2 } (by decide)
  exact ⟨h.1, by simpa using h.2.1⟩

/-- C10: `get_trending` treats the empty-string category like no category
(the whole static list, truncated to the limit, is returned — not the empty
list an exact match against `""` would give), and any non-empty category
filters by exact equality. -/
theorem trending_empty_category_unfiltered (limit : Int) :
    get_trending (some "") limit = get_trending none limit ∧
    (get_trending (some "") limit).trending = pySliceTo trendingItems limit ∧
    (∀ c : String, c ≠ "" →
      (get_trending (some c) limit).trending =
        pySliceTo (trendingItems.filter (fun item => item.category = c)) limit) := by
  refine ⟨rfl, rfl, fun c hc => ?_⟩
  simp only [get_trending, pyTruthyOptStr]
  rw [if_pos (by simpa using hc)]
  simp [Option.some.injEq]

/-- Witness for C10 at `limit = 10` and the concrete category `"food"`. -/
theorem trending_empty_category_unfiltered_witness :
    get_trending (some "") 10 = get_trending none 10 ∧
    (get_trending (some "food") 10).trending =
      pySliceTo (trendingItems.filter (fun item => item.category = "food")) 10 := by
  have h := trending_empty_category_unfiltered 10
  exact ⟨h.1, h.2.2 ("food") (by decide)⟩

/-! ## Theorems about the configuration resolver -/

/-- Whenever `_apply_yaml_config` returns normally, the result is the input
settings with at most `HOST` and `PORT` replaced. -/
theorem apply_yaml_config_shape (s : Settings) (file : YamlFile) (r : Settings)
    (hr : apply_yaml_config s file = .ok r) :
    r = { s with HOST := r.HOST, PORT := r.PORT } := by
  unfold apply_yaml_config at hr
  cases file with
  | absent => cases hr; rfl
  | malformed => cases hr
  | parsed config =>
    cases config with
    | none => cases hr; rfl
    | some config =>
      dsimp only at hr
      split at hr
      · split at hr
        · cases hr; rfl
        · split at hr
          · cases hr; rfl
          · cases hr; rfl
      · cases hr; rfl

/-- C3 (the code at the claimed behavior): a missing file leaves the settings
untouched and no error arises, but a file whose contents are malformed YAML
makes `_apply_yaml_config` — and with it `Settings` construction — raise,
because `yaml.safe_load`'s `YAMLError` is never caught. -/
theorem malformed_yaml_raises :
    apply_yaml_config defaultSettings .absent = .ok defaultSettings ∧
    apply_yaml_config defaultSettings .malformed = .error .yamlError ∧
    settingsInit (fun _ => .malformed) {} = .error .yamlError :=
  ⟨rfl, rfl, rfl⟩

/-- C6: `_apply_yaml_config` changes at most `HOST` and `PORT`: every other
`Settings` field is identical before and after, for every file contents. -/
theorem apply_yaml_config_frame (s : Settings) (file : YamlFile) (r : Settings)
    (hr : apply_yaml_config s file = .ok r) :
    r.APP_NAME = s.APP_NAME ∧ r.VERSION = s.VERSION ∧
    r.ENVIRONMENT = s.ENVIRONMENT ∧ r.DEBUG = s.DEBUG ∧
    r.LOG_LEVEL = s.LOG_LEVEL ∧ r.CORS_ORIGINS = s.CORS_ORIGINS ∧
    Settings.API_PREFIX r = Settings.API_PREFIX s ∧
    r.DOCS_ENABLED = s.DOCS_ENABLED ∧ r.SECRET_KEY = s.SECRET_KEY ∧
    r.ALGORITHM = s.ALGORITHM ∧
    r.ACCESS_TOKEN_EXPIRE_MINUTES = s.ACCESS_TOKEN_EXPIRE_MINUTES ∧
    r.MODEL_PATH = s.MODEL_PATH ∧ r.MAX_BATCH_SIZE = s.MAX_BATCH_SIZE ∧
    r.PREDICTION_TIMEOUT = s.PREDICTION_TIMEOUT := by
  have h := apply_yaml_config_shape s file r hr
  refine ⟨?_, ?_, ?_, ?_, ?_, ?_, ?_, ?_, ?_, ?_, ?_, ?_, ?_, ?_⟩ <;>
    (conv_lhs => rw [h])

/-- Witness for C6: applying `frameDemoDoc` — which names `SECRET_KEY`,
`DEBUG` and `LOG_LEVEL` inside its `smart` section — to the defaults moves
only `HOST` and `PORT`. -/
theorem apply_yaml_config_frame_witness :
    apply_yaml_config defaultSettings (.parsed (some frameDemoDoc)) = .ok frameDemoResult ∧
    frameDemoResult.SECRET_KEY = defaultSettings.SECRET_KEY ∧
    frameDemoResult.DEBUG = defaultSettings.DEBUG ∧
    frameDemoResult.LOG_LEVEL = defaultSettings.LOG_LEVEL := by
  have hr : apply_yaml_config defaultSettings (.parsed (some frameDemoDoc)) =
      .ok frameDemoResult := by rfl
  have h := apply_yaml_config_frame defaultSettings (.parsed (some frameDemoDoc))
    frameDemoResult hr
  exact ⟨hr, h.2.2.2.2.2.2.2.2.1, h.2.2.2.1, h.2.2.2.2.1⟩

/-- Whenever the environment-variable override step returns normally, the
values of the recognized variables win: `PORT` is the parsed environment
string, `HOST`, `ENVIRONMENT` and `LOG_LEVEL` are the raw ones. -/
theorem applyEnvOverrides_spec (s : Settings) (env : Env) (r : Settings)
    (hr : applyEnvOverrides s env = .ok r) :
    (∀ p n, env.PORT = some p → pyInt p = some n → r.PORT = n) ∧
    (∀ h, env.HOST = some h → r.HOST = h) ∧
    (∀ e, env.PYTHON_ENV = some e → r.ENVIRONMENT = e) ∧
    (∀ l, env.LOG_LEVEL = some l → r.LOG_LEVEL = l) := by
  unfold applyEnvOverrides at hr
  split at hr
  next hP =>
    injection hr with hr
    subst hr
    refine ⟨?_, ?_, ?_, ?_⟩
    · intro p n hp _
      rw [hP] at hp
      cases hp
    · intro h hh
      simp [hh]
    · intro e he
      simp [he]
    · intro l hl
      simp [hl]
  next p0 hP =>
    split at hr
    next hI => cases hr
    next n0 hI =>
      injection hr with hr
      subst hr
      refine ⟨?_, ?_, ?_, ?_⟩
      · intro p n hp hn
        rw [hP] at hp
        injection hp with hp
        subst hp
        rw [hI] at hn
        exact Option.some.inj hn
      · intro h hh
        simp [hh]
      · intro e he
        simp [he]
      · intro l hl
        simp [hl]

/-- Whenever `Settings` construction returns normally, its result came out of
the final environment-variable override step applied to some intermediate
settings. -/
theorem settingsInit_ends_with_env (files : String → YamlFile) (env : Env)
    (s : Settings) (hs : settingsInit files env = .ok s) :
    ∃ s0, applyEnvOverrides s0 env = .ok s := by
  unfold settingsInit at hs
  split at hs
  · cases hs
  · unfold load_yaml_config at hs
    split at hs
    · cases hs
    · split at hs
      · cases hs
      · exact ⟨_, hs⟩

/-- C5: sources are applied in strict precedence order with the process
environment last, so whenever `Settings` construction succeeds, every
recognized environment variable's value is the resolved one — in particular
a set `PORT` determines `Settings.PORT` (as its parsed integer) regardless of
the YAML files and the defaults. -/
theorem env_overrides_yaml_and_defaults (files : String → YamlFile) (env : Env)
    (s : Settings) (hs : settingsInit files env = .ok s) :
    (∀ p n, env.PORT = some p → pyInt p = some n → s.PORT = n) ∧
    (∀ h, env.HOST = some h → s.HOST = h) ∧
    (∀ e, env.PYTHON_ENV = some e → s.ENVIRONMENT = e) ∧
    (∀ l, env.LOG_LEVEL = some l → s.LOG_LEVEL = l) := by
  obtain ⟨s0, h0⟩ := settingsInit_ends_with_env files env s hs
  exact applyEnvOverrides_spec s0 env s h0

/-- Witness for C5: with both YAML files setting `port: 1234` and the
environment setting `PORT=9999`, construction resolves `PORT` to 9999. -/
theorem env_overrides_yaml_and_defaults_witness :
    settingsInit demoFiles demoEnv = .ok demoResolved ∧
    demoResolved.PORT = 9999 ∧ demoResolved.HOST = "confighost" := by
  have hs : settingsInit demoFiles demoEnv = .ok demoResolved := by rfl
  refine ⟨hs, ?_, rfl⟩
  exact (env_overrides_yaml_and_defaults demoFiles demoEnv demoResolved hs).1
    ("9999") 9999 rfl (by decide)

/-- C8: a recognized environment variable whose value fails its type
coercion — `PORT` set to a string `int()` rejects — makes `Settings`
construction itself fail with an error, for every file system and
environment, rather than succeed and defer the failure. -/
theorem nonnumeric_port_fails_construction (files : String → YamlFile) (env : Env)
    (p : String) (hp : env.PORT = some p) (hn : pyInt p = none) :
    settingsInit files env = .error .valueError := by
  unfold settingsInit pydanticInit
  simp only [hp, hn]

/-- Witness for C8: `PORT=abc` fails construction outright. -/
theorem nonnumeric_port_fails_construction_witness :
    settingsInit (fun _ => .absent) { PORT := some "abc" } = .error .valueError :=
  nonnumeric_port_fails_construction (fun _ => .absent) { PORT := some "abc" }
    ("abc") rfl (by decide)

end Smart
